import Mathlib

/-!
Verification of the named-parameter SQL rewriting and the JWT
issuance/verification core of the node-express-boilerplate repository.

SQL side (src/lib/mysql.js `MySQLClient.customQueryFormat`,
lib/pgsql `PgSQLClient.formatQuery`, and both classes'
`validateStatements`): both formatters are a single JavaScript
`query.replace(/:(\w+)/g, callback)`.  We embed that regex scan as an
explicit left-to-right tokenizer over the character list (`lexQuery`),
whose `Option (List Char)` state holds the word characters accumulated
since the last unconsumed `:`; the per-match callbacks of the two
dialects become the renderers applied to the token stream.

JWT side (lib/jwt `JWTClient`): the class methods are embedded with the
ambient clock passed explicitly (epoch milliseconds, `moment().utc().unix()`
is division by 1000); the external `jsonwebtoken` and `uuid` libraries are
modelled from the spec where noted.
-/

/-- JavaScript `\w` character class (ASCII word characters), as used by the
placeholder regex `:(\w+)` in both SQL clients. -/
def isWordChar (c : Char) : Bool :=
  ('a' ≤ c && c ≤ 'z') || ('A' ≤ c && c ≤ 'Z') || ('0' ≤ c && c ≤ '9') || c = '_'

/-- One element of the lexed query template: either a plain character left
untouched by the regex scan, or a matched placeholder token `:key`
(the stored `key` excludes the colon, as in the regex capture group). -/
inductive SqlItem where
  | chr (c : Char)
  | tok (key : String)
deriving DecidableEq, Repr

/-- Emit the pending scanner state when the character run after a `:` ends:
an empty run means the regex `:(\w+)` did not match at that colon, so the
colon is a plain character; a non-empty run `acc` (held reversed) is a
matched placeholder. -/
def flushTok : List Char → List SqlItem
  | [] => [.chr ':']
  | acc => [.tok (String.mk acc.reverse)]

/-- Left-to-right scan of the template for the regex `:(\w+)` shared by
`MySQLClient.customQueryFormat` and `PgSQLClient.formatQuery`.  The state
is `none` outside a candidate match and `some acc` when a `:` has been
seen and `acc` (reversed) is the maximal word-character run read so far;
greediness of `\w+` is the "keep consuming while `isWordChar`" branch. -/
def lexAux : List Char → Option (List Char) → List SqlItem
  | [], none => []
  | [], some acc => flushTok acc
  | c :: rest, none =>
      if c = ':' then lexAux rest (some [])
      else .chr c :: lexAux rest none
  | c :: rest, some acc =>
      if isWordChar c then lexAux rest (some (c :: acc))
      else
        flushTok acc ++
          (if c = ':' then lexAux rest (some [])
           else .chr c :: lexAux rest none)

/-- Lex a whole query template into plain characters and `:key` tokens. -/
def lexQuery (l : List Char) : List SqlItem :=
  lexAux l none

/-- Per-match callback of `MySQLClient.customQueryFormat`: a token whose key
is a property of `values` is replaced by `this.escape(values[key])`
(the driver escape function is the parameter `esc`); otherwise the matched
text `:key` is returned unchanged.  Plain characters pass through. -/
def renderMyItem (esc : α → String) (vs : List (String × α)) : SqlItem → List Char
  | .chr c => [c]
  | .tok key =>
      match vs.lookup key with
      | some v => (esc v).data
      | none => ':' :: key.data

/-- Embedding of `MySQLClient.customQueryFormat(query, values)`:
`if (!values) return query;` then the regex replace. -/
def customQueryFormat (esc : α → String) (values : Option (List (String × α)))
    (query : String) : String :=
  match values with
  | none => query
  | some vs => String.mk ((lexQuery query.data).map (renderMyItem esc vs)).flatten

/-- Positional marker text `$n`, the template literal `` `$${idx + 1}` `` of
`PgSQLClient.formatQuery`. -/
def marker (n : Nat) : List Char :=
  '$' :: (toString n).data

/-- Stateful per-match replacement loop of `PgSQLClient.formatQuery` over the
token stream: `keys` is the mutable `keys` array; a token absent from
`values` returns the matched text (`if (!(key in values)) return txt;`);
a present token looks up `keys.indexOf(key)`, pushes the key on first
sighting, and emits `$idx+1`.  Returns the rewritten text and final keys. -/
def pgReplaceAux (vs : List (String × α)) :
    List SqlItem → List String → List Char × List String
  | [], keys => ([], keys)
  | .chr c :: items, keys =>
      let r := pgReplaceAux vs items keys
      (c :: r.1, r.2)
  | .tok key :: items, keys =>
      match vs.lookup key with
      | none =>
          let r := pgReplaceAux vs items keys
          ((':' :: key.data) ++ r.1, r.2)
      | some _ =>
          if key ∈ keys then
            let r := pgReplaceAux vs items keys
            (marker (keys.indexOf key + 1) ++ r.1, r.2)
          else
            let r := pgReplaceAux vs items (keys ++ [key])
            (marker (keys.length + 1) ++ r.1, r.2)

/-- Result type of `PgSQLClient.formatQuery`: `{ text, values }` for pg.
Each emitted value is `values[k]` for a recorded key `k`, modelled as the
association-list lookup (always `some` for keys the scan recorded). -/
structure BoundQuery (α : Type) where
  text : String
  values : List (Option α)
deriving DecidableEq, Repr

/-- Embedding of `PgSQLClient.formatQuery(query, values)`: replaces `:key`
with `$1, $2, ...` and returns `{ text, values }`;
`if (!values) return { text: query, values: [] };`. -/
def PgSQLClient.formatQuery (values : Option (List (String × α)))
    (query : String) : BoundQuery α :=
  match values with
  | none => ⟨query, []⟩
  | some vs =>
      let r := pgReplaceAux vs (lexQuery query.data) []
      ⟨String.mk r.1, r.2.map (fun k => vs.lookup k)⟩

/-- Whether the statement contains the substring `${`
(`statement.includes` check of `validateStatements`). -/
def hasTemplateLiteral : List Char → Bool
  | [] => false
  | c :: rest =>
      (c = '$' && (match rest with | c2 :: _ => c2 = '\x7b' | [] => false))
        || hasTemplateLiteral rest

/-- Quote characters of the `validateStatements` concatenation heuristic
regex character class. -/
def isQuoteChar (c : Char) : Bool :=
  c = '\'' || c = '"' || c = '`'

/-- Suffix check for `\+[^\n]*\w` once a `+` has been consumed: some word
character occurs with no newline strictly before it. -/
def matchAfterPlus : List Char → Bool
  | [] => false
  | c :: rest =>
      if c = '\n' then false
      else if isWordChar c then true
      else matchAfterPlus rest

/-- Scan inside `[^'"`]*\+...` after an opening quote: fail at the next
quote character, succeed at a `+` whose suffix matches `\+[^\n]*\w`. -/
def afterQuote : List Char → Bool
  | [] => false
  | c :: rest =>
      if isQuoteChar c then false
      else if c = '+' && matchAfterPlus rest then true
      else afterQuote rest

/-- Whether `statement.match(/['"`][^'"`]*\+[^\n]*\w/)` finds a match at any
start position. -/
def concatRisk : List Char → Bool
  | [] => false
  | c :: rest => (isQuoteChar c && afterQuote rest) || concatRisk rest

/-- The advisory console warnings `validateStatements` can emit for a
statement (non-fatal; the statement text is attached as in the source). -/
inductive SqlWarning where
  | templateLiteral (stmt : String)
  | stringConcat (stmt : String)
deriving DecidableEq, Repr

/-- JavaScript argument as seen by the `typeof statement !== 'string'` guard. -/
inductive JsValue where
  | str (s : String)
  | nonString
deriving DecidableEq, Repr

/-- Embedding of `validateStatements(statement)`, identical in
`MySQLClient` and `PgSQLClient`: throw for non-string input, throw when
`SqlString.format(statement)` throws (the external sqlstring check is the
abstract parameter `fmtCheck`, `some msg` meaning it throws `msg`), then
emit the two heuristic advisories without failing. -/
def validateStatements (fmtCheck : String → Option String) :
    JsValue → Except String (List SqlWarning)
  | .nonString => .error "All statements must be strings."
  | .str s =>
      match fmtCheck s with
      | some m => .error ("Invalid SQL statement: " ++ m)
      | none =>
          .ok ((if hasTemplateLiteral s.data then [.templateLiteral s] else [])
            ++ (if concatRisk s.data then [.stringConcat s] else []))

/-! Specification-side rendering of positional binding, used to state C1:
markers are assigned by first-occurrence order of the distinct substituted
identifiers, computed in a separate first pass. -/

/-- Distinct identifiers substituted by positional binding, in
first-occurrence order, continuing from an already-collected prefix `acc`
(spec words: "each *distinct* identifier is assigned the next marker number
on first sighting"). -/
def firstOccAux (vs : List (String × α)) : List SqlItem → List String → List String
  | [], acc => acc
  | .chr _ :: items, acc => firstOccAux vs items acc
  | .tok k :: items, acc =>
      if (vs.lookup k).isSome ∧ k ∉ acc then firstOccAux vs items (acc ++ [k])
      else firstOccAux vs items acc

/-- Spec-side rendering of one item given the full first-occurrence key
list: a substituted token becomes its assigned positional marker, an
absent token stays literal. -/
def pgRenderItem (vs : List (String × α)) (allKeys : List String) : SqlItem → List Char
  | .chr c => [c]
  | .tok k =>
      if (vs.lookup k).isSome then marker (allKeys.indexOf k + 1)
      else ':' :: k.data

/-- First-occurrence order of the distinct substituted identifiers of a
query (spec side). -/
def pgSpecKeys (vs : List (String × α)) (query : String) : List String :=
  firstOccAux vs (lexQuery query.data) []

/-- Spec-side positional binding, following the spec's words for C1: every
occurrence of a substituted identifier is replaced by the marker numbered
by that identifier's position in first-occurrence order, and the value
list has exactly one entry per distinct substituted identifier, in that
same order. -/
def pgSpecFormat (vs : List (String × α)) (query : String) : BoundQuery α :=
  ⟨String.mk ((lexQuery query.data).map (pgRenderItem vs (pgSpecKeys vs query))).flatten,
   (pgSpecKeys vs query).map (fun k => vs.lookup k)⟩

/-- Collecting first occurrences only ever appends to the accumulator. -/
theorem firstOccAux_append (vs : List (String × α)) :
    ∀ (items : List SqlItem) (acc : List String),
      ∃ t, firstOccAux vs items acc = acc ++ t := by
  intro items
  induction items with
  | nil => intro acc; exact ⟨[], by simp [firstOccAux]⟩
  | cons it items ih =>
    intro acc
    cases it with
    | chr c => simpa [firstOccAux] using ih acc
    | tok k =>
      simp only [firstOccAux]
      by_cases h : (vs.lookup k).isSome = true ∧ k ∉ acc
      · rw [if_pos h]
        obtain ⟨t, ht⟩ := ih (acc ++ [k])
        exact ⟨[k] ++ t, by simp [ht]⟩
      · rw [if_neg h]; exact ih acc

/-- Collecting first occurrences preserves freedom from duplicates. -/
theorem firstOccAux_nodup (vs : List (String × α)) :
    ∀ (items : List SqlItem) (acc : List String), acc.Nodup →
      (firstOccAux vs items acc).Nodup := by
  intro items
  induction items with
  | nil => intro acc h; simpa [firstOccAux] using h
  | cons it items ih =>
    intro acc h
    cases it with
    | chr c => simpa [firstOccAux] using ih acc h
    | tok k =>
      simp only [firstOccAux]
      by_cases hg : (vs.lookup k).isSome = true ∧ k ∉ acc
      · rw [if_pos hg]
        refine ih (acc ++ [k]) ?_
        simp [List.nodup_append, h, hg.2]
      · rw [if_neg hg]; exact ih acc h

/-- Core refinement for positional binding: the single stateful replacement
pass of `PgSQLClient.formatQuery` produces exactly the spec-side rendering
in which every item is rendered against the final first-occurrence key
list, and its final `keys` array is that first-occurrence list. -/
theorem pgReplaceAux_spec (vs : List (String × α)) :
    ∀ (items : List SqlItem) (keys : List String),
      pgReplaceAux vs items keys =
        ((items.map (pgRenderItem vs (firstOccAux vs items keys))).flatten,
         firstOccAux vs items keys) := by
  intro items
  induction items with
  | nil => intro keys; simp [pgReplaceAux, firstOccAux]
  | cons it items ih =>
    intro keys
    cases it with
    | chr c =>
      simp [pgReplaceAux, firstOccAux, ih keys, pgRenderItem]
    | tok k =>
      cases hk : vs.lookup k with
      | none =>
        simp [pgReplaceAux, firstOccAux, hk, ih keys, pgRenderItem]
      | some v =>
        by_cases hmem : k ∈ keys
        · obtain ⟨t, ht⟩ := firstOccAux_append vs items keys
          have hidx : (firstOccAux vs items keys).indexOf k = keys.indexOf k := by
            rw [ht]; exact List.indexOf_append_of_mem hmem
          simp [pgReplaceAux, firstOccAux, hk, hmem, ih keys, pgRenderItem, hidx]
        · obtain ⟨t, ht⟩ := firstOccAux_append vs items (keys ++ [k])
          have hidx : (firstOccAux vs items (keys ++ [k])).indexOf k = keys.length := by
            rw [ht, List.append_assoc, List.indexOf_append_of_not_mem hmem]
            simp [List.indexOf_cons_self]
          simp [pgReplaceAux, firstOccAux, hk, hmem, ih (keys ++ [k]), pgRenderItem, hidx]

/-- C1: for every template and parameter set, positional-style binding
(`PgSQLClient.formatQuery`) assigns each distinct identifier that is a key
of the parameter set the next marker number on its first occurrence
scanning left to right, repeats of an identifier reuse that marker number,
and the emitted value list has exactly one entry per distinct substituted
identifier, ordered by marker number (first-occurrence order): the
formatter coincides with the spec-side two-pass rendering `pgSpecFormat`,
and the first-occurrence key list is duplicate-free. -/
theorem c1_positional_binding_first_occurrence {α : Type}
    (vs : List (String × α)) (q : String) :
    PgSQLClient.formatQuery (some vs) q = pgSpecFormat vs q
      ∧ (pgSpecKeys vs q).Nodup := by
  refine ⟨?_, firstOccAux_nodup vs _ _ List.nodup_nil⟩
  simp [PgSQLClient.formatQuery, pgSpecFormat, pgSpecKeys, pgReplaceAux_spec vs]

/-- C2: for both dialects, every occurrence of a token `:identifier` whose
identifier is not a key of the parameter set is preserved verbatim
(colon included) at its position in the bound output. -/
theorem c2_absent_identifier_preserved (esc : α → String)
    (vs : List (String × α)) (q : String) (pre suf : List SqlItem) (k : String)
    (hq : lexQuery q.data = pre ++ .tok k :: suf)
    (hk : vs.lookup k = none) :
    (customQueryFormat esc (some vs) q).data =
        (pre.map (renderMyItem esc vs)).flatten ++ (':' :: k.data)
          ++ (suf.map (renderMyItem esc vs)).flatten
      ∧ (PgSQLClient.formatQuery (some vs) q).text.data =
        (pre.map (pgRenderItem vs (pgSpecKeys vs q))).flatten ++ (':' :: k.data)
          ++ (suf.map (pgRenderItem vs (pgSpecKeys vs q))).flatten := by
  constructor
  · simp [customQueryFormat, hq, renderMyItem, hk]
  · simp only [PgSQLClient.formatQuery, pgReplaceAux_spec vs, pgSpecKeys]
    simp [hq, pgRenderItem, hk]

/-- Witness for C2 at a concrete template: `:missing` is not a parameter
key and survives verbatim in both dialects' outputs. -/
theorem c2_witness :
    (customQueryFormat (fun n : Nat => toString n) (some [("id", (1 : Nat))])
        "SELECT :missing FROM t").data =
        (("SELECT ".data.map SqlItem.chr).map
            (renderMyItem (fun n : Nat => toString n) [("id", (1 : Nat))])).flatten
          ++ (':' :: "missing".data)
          ++ ((" FROM t".data.map SqlItem.chr).map
            (renderMyItem (fun n : Nat => toString n) [("id", (1 : Nat))])).flatten
      ∧ (PgSQLClient.formatQuery (some [("id", (1 : Nat))])
            "SELECT :missing FROM t").text.data =
        (("SELECT ".data.map SqlItem.chr).map
            (pgRenderItem [("id", (1 : Nat))]
              (pgSpecKeys [("id", (1 : Nat))] "SELECT :missing FROM t"))).flatten
          ++ (':' :: "missing".data)
          ++ ((" FROM t".data.map SqlItem.chr).map
            (pgRenderItem [("id", (1 : Nat))]
              (pgSpecKeys [("id", (1 : Nat))] "SELECT :missing FROM t"))).flatten :=
  c2_absent_identifier_preserved (fun n : Nat => toString n)
    [("id", (1 : Nat))] "SELECT :missing FROM t"
    ("SELECT ".data.map SqlItem.chr) (" FROM t".data.map SqlItem.chr) "missing"
    (by decide) (by decide)

/-- C10: substitution is purely lexical over `:(\w+)`: a `:identifier`
occurrence inside a quoted SQL string literal is substituted when its
identifier is a parameter key, and in a Postgres double-colon cast
`v::name` the second colon plus `name` is matched and substituted, the
first colon remaining literal — shown on both dialects. -/
theorem c10_substitution_is_lexical :
    PgSQLClient.formatQuery (some [("name", (2 : Nat)), ("id", (1 : Nat))])
        "SELECT 'x :name' FROM t WHERE c = v::name AND i = :id"
      = ⟨"SELECT 'x $1' FROM t WHERE c = v:$1 AND i = $2", [some 2, some 1]⟩
    ∧ customQueryFormat (fun n : Nat => toString n) (some [("name", (2 : Nat))])
        "SELECT 'x :name' FROM t WHERE c = v::name"
      = "SELECT 'x 2' FROM t WHERE c = v:2" := by
  decide

/-- C8: `validateStatements` fails with a hard error exactly when the input
is not a string or the dialect's generic statement-format check throws;
a string containing the dynamic-interpolation marker or matching the
quote-plus-word concatenation pattern that passes the format check returns
normally, carrying the corresponding non-fatal advisory. -/
theorem c8_validate_error_iff (fmtCheck : String → Option String) :
    (∀ inp : JsValue, (∃ e, validateStatements fmtCheck inp = .error e) ↔
        inp = .nonString ∨ ∃ s m, inp = .str s ∧ fmtCheck s = some m)
    ∧ (∀ s : String, fmtCheck s = none → hasTemplateLiteral s.data = true →
        ∃ ws, validateStatements fmtCheck (.str s) = .ok ws
          ∧ SqlWarning.templateLiteral s ∈ ws)
    ∧ (∀ s : String, fmtCheck s = none → concatRisk s.data = true →
        ∃ ws, validateStatements fmtCheck (.str s) = .ok ws
          ∧ SqlWarning.stringConcat s ∈ ws) := by
  refine ⟨?_, ?_, ?_⟩
  · intro inp
    cases inp with
    | nonString => simp [validateStatements]
    | str s =>
      cases hf : fmtCheck s with
      | none => simp [validateStatements, hf]
      | some m => simp [validateStatements, hf]
  · intro s h1 h2
    refine ⟨(if hasTemplateLiteral s.data then [.templateLiteral s] else [])
        ++ (if concatRisk s.data then [.stringConcat s] else []), ?_, ?_⟩
    · simp [validateStatements, h1]
    · simp [h2]
  · intro s h1 h2
    refine ⟨(if hasTemplateLiteral s.data then [.templateLiteral s] else [])
        ++ (if concatRisk s.data then [.stringConcat s] else []), ?_, ?_⟩
    · simp [validateStatements, h1]
    · simp [h2]

/-- Witness for C8: the spec's example template contains the interpolation
marker, passes the (here: always-passing) format check, and yields a
normal return with the template-literal advisory. -/
theorem c8_witness :
    ∃ ws, validateStatements (fun _ => none)
        (.str "SELECT * FROM t WHERE name = '$\x7bx\x7d'") = .ok ws
      ∧ SqlWarning.templateLiteral "SELECT * FROM t WHERE name = '$\x7bx\x7d'" ∈ ws :=
  (c8_validate_error_iff (fun _ => none)).2.1
    "SELECT * FROM t WHERE name = '$\x7bx\x7d'" rfl (by decide)

/-! Token service (lib/jwt `JWTClient`).  The ambient clock is passed
explicitly: `nowMs` is `Date.now()` in epoch milliseconds, and
`moment().utc().unix()` is `nowMs / 1000`.  The configured lifetimes are
stored already resolved by the external `ms` library to milliseconds
(`ms(this.accessExpiresIn)`). -/

/-- Claim set constructed by the token generators: registered claims, the
type discriminator, and the caller's opaque payload data. -/
structure Claims (α : Type) where
  iss : String
  aud : String
  iat : Nat
  nbf : Nat
  sub : String
  jti : Nat
  exp : Nat
  type : String
  data : α
deriving DecidableEq, Repr

/-- Modelled from the spec: a compact signed token is abstracted as the
claim set bound to the secret it was signed with ("Signs the claim set
with the class-specific secret"). -/
structure SignedToken (α : Type) where
  claims : Claims α
  signingSecret : String
deriving DecidableEq, Repr

/-- Modelled from the spec: `jwt.sign(payload, secret)` of jsonwebtoken. -/
def jwtSign (payload : Claims α) (secret : String) : SignedToken α :=
  ⟨payload, secret⟩

/-- Underlying verification failure reasons of `jwt.verify`. -/
inductive JwtVerifyError where
  | invalidSignature
  | notBeforeError
  | tokenExpired
deriving DecidableEq, Repr

/-- Modelled from the spec: `jwt.verify(token, secret, cb)` — "Verifies
signature against the class-specific secret and checks standard temporal
claims (not expired, not before not-before)"; "a token signed with the
wrong secret always fails signature verification".  `nowSec` is the
verifier's clock in epoch seconds. -/
def jwtVerify (t : SignedToken α) (secret : String) (nowSec : Nat) :
    Except JwtVerifyError (Claims α) :=
  if t.signingSecret ≠ secret then .error .invalidSignature
  else if nowSec < t.claims.nbf then .error .notBeforeError
  else if t.claims.exp ≤ nowSec then .error .tokenExpired
  else .ok t.claims

/-- Configuration of `JWTClient`, fixed at construction; the two lifetimes
are kept as their `ms`-resolved millisecond counts. -/
structure JWTClient where
  issuer : String
  audience : String
  subject : String
  accessSecret : String
  refreshSecret : String
  accessExpiresIn : Nat
  refreshExpiresIn : Nat
deriving DecidableEq, Repr

/-- Common fields produced by `_createBasePayload`. -/
structure BasePayload where
  iss : String
  aud : String
  iat : Nat
  nbf : Nat
  sub : String
  jti : Nat
deriving DecidableEq, Repr

/-- Embedding of `JWTClient._createBasePayload`: `now` is
`moment().utc().unix()`, and `jti` (source: `uuid()`) is passed in by the
issuance wrappers below. -/
def JWTClient.createBasePayload (c : JWTClient) (nowMs : Nat) (jti : Nat) :
    BasePayload :=
  ⟨c.issuer, c.audience, nowMs / 1000, nowMs / 1000, c.subject, jti⟩

/-- Embedding of `JWTClient.generateAccessToken({ data })`: base payload,
`exp = moment().add(ms(accessExpiresIn), 'milliseconds').utc().unix()`,
type tag `"access"`, signed with the access secret. -/
def JWTClient.generateAccessToken (c : JWTClient) (nowMs : Nat) (jti : Nat)
    (data : α) : SignedToken α :=
  let base := c.createBasePayload nowMs jti
  jwtSign
    ⟨base.iss, base.aud, base.iat, base.nbf, base.sub, base.jti,
     (nowMs + c.accessExpiresIn) / 1000, "access", data⟩
    c.accessSecret

/-- Embedding of `JWTClient.generateRefreshToken({ data })`. -/
def JWTClient.generateRefreshToken (c : JWTClient) (nowMs : Nat) (jti : Nat)
    (data : α) : SignedToken α :=
  let base := c.createBasePayload nowMs jti
  jwtSign
    ⟨base.iss, base.aud, base.iat, base.nbf, base.sub, base.jti,
     (nowMs + c.refreshExpiresIn) / 1000, "refresh", data⟩
    c.refreshSecret

/-- Rejection object built by the verify methods: message, underlying
verification error, and class-specific code. -/
structure JWTErrorObj where
  message : String
  error : JwtVerifyError
  code : String
deriving DecidableEq, Repr

/-- Embedding of `JWTClient.verifyAccessToken(token)`: `jwt.verify` against
the access secret; any failure is wrapped with the class-specific code
`ER_INVALID_ACCESS_TOKEN`, success resolves with the decoded claims. -/
def JWTClient.verifyAccessToken (c : JWTClient) (t : SignedToken α)
    (nowSec : Nat) : Except JWTErrorObj (Claims α) :=
  match jwtVerify t c.accessSecret nowSec with
  | .error e =>
      .error ⟨"Invalid or expired access token", e, "ER_INVALID_ACCESS_TOKEN"⟩
  | .ok d => .ok d

/-- Embedding of `JWTClient.verifyRefreshToken(token)`. -/
def JWTClient.verifyRefreshToken (c : JWTClient) (t : SignedToken α)
    (nowSec : Nat) : Except JWTErrorObj (Claims α) :=
  match jwtVerify t c.refreshSecret nowSec with
  | .error e =>
      .error ⟨"Invalid or expired refresh token", e, "ER_INVALID_REFRESH_TOKEN"⟩
  | .ok d => .ok d

/-- Modelled from the spec: `uuid.v7()` — "a freshly generated unique token
identifier (time-ordered unique id)", "No two calls ever produce the same
token identifier".  The generator is a strictly increasing counter whose
state is threaded through successive calls; a call returns the fresh id
and the successor state. -/
def uuidV7 (s : Nat) : Nat × Nat :=
  (s, s + 1)

/-- Issuance of an access token with the uuid generator state threaded
explicitly (`jti: uuid()` inside `_createBasePayload`). -/
def JWTClient.issueAccess (c : JWTClient) (nowMs : Nat) (d : α) (s : Nat) :
    SignedToken α × Nat :=
  (c.generateAccessToken nowMs (uuidV7 s).1 d, (uuidV7 s).2)

/-- Issuance of a refresh token with the uuid generator state threaded
explicitly. -/
def JWTClient.issueRefresh (c : JWTClient) (nowMs : Nat) (d : α) (s : Nat) :
    SignedToken α × Nat :=
  (c.generateRefreshToken nowMs (uuidV7 s).1 d, (uuidV7 s).2)

/-- C3: issuing an access token and verifying it under the same
configuration, at a verification clock not before issuance and strictly
before the token's expiration second, succeeds and returns a claim set
whose embedded data equals the input and whose type tag is `"access"`. -/
theorem c3_access_round_trip (c : JWTClient) (nowMs jti : Nat) (d : α)
    (vSec : Nat) (hnbf : nowMs / 1000 ≤ vSec)
    (hexp : vSec < (nowMs + c.accessExpiresIn) / 1000) :
    ∃ cl : Claims α,
      c.verifyAccessToken (c.generateAccessToken nowMs jti d) vSec = .ok cl
        ∧ cl.data = d ∧ cl.type = "access" := by
  refine ⟨⟨c.issuer, c.audience, nowMs / 1000, nowMs / 1000, c.subject, jti,
    (nowMs + c.accessExpiresIn) / 1000, "access", d⟩, ?_, rfl, rfl⟩
  simp [JWTClient.verifyAccessToken, JWTClient.generateAccessToken,
    JWTClient.createBasePayload, jwtSign, jwtVerify,
    Nat.not_lt.mpr hnbf, Nat.not_le.mpr hexp]

/-- Witness for C3 at a concrete configuration (15-minute access lifetime),
issuing and verifying at the same instant. -/
theorem c3_witness :
    ∃ cl : Claims Nat,
      JWTClient.verifyAccessToken ⟨"i", "a", "s", "as", "rs", 900000, 604800000⟩
          (JWTClient.generateAccessToken ⟨"i", "a", "s", "as", "rs", 900000, 604800000⟩
            0 0 (42 : Nat)) 0 = .ok cl
        ∧ cl.data = 42 ∧ cl.type = "access" :=
  c3_access_round_trip ⟨"i", "a", "s", "as", "rs", 900000, 604800000⟩ 0 0 42 0
    (by decide) (by decide)

/-- C4: when the access and refresh secrets differ, an access token always
fails refresh verification and a refresh token always fails access
verification, with an invalid-signature reason, because each verification
path checks only its own secret. -/
theorem c4_cross_secret_verification_fails (c : JWTClient)
    (h : c.accessSecret ≠ c.refreshSecret) (nowMs jti vSec : Nat) (d d' : α) :
    c.verifyRefreshToken (c.generateAccessToken nowMs jti d) vSec =
        .error ⟨"Invalid or expired refresh token", .invalidSignature,
          "ER_INVALID_REFRESH_TOKEN"⟩
      ∧ c.verifyAccessToken (c.generateRefreshToken nowMs jti d') vSec =
        .error ⟨"Invalid or expired access token", .invalidSignature,
          "ER_INVALID_ACCESS_TOKEN"⟩ := by
  constructor
  · simp [JWTClient.verifyRefreshToken, JWTClient.generateAccessToken,
      JWTClient.createBasePayload, jwtSign, jwtVerify, h]
  · simp [JWTClient.verifyAccessToken, JWTClient.generateRefreshToken,
      JWTClient.createBasePayload, jwtSign, jwtVerify, Ne.symm h]

/-- Witness for C4 with distinct concrete secrets. -/
theorem c4_witness :
    JWTClient.verifyRefreshToken ⟨"i", "a", "s", "as", "rs", 900000, 604800000⟩
        (JWTClient.generateAccessToken ⟨"i", "a", "s", "as", "rs", 900000, 604800000⟩
          0 0 (1 : Nat)) 0 =
        .error ⟨"Invalid or expired refresh token", .invalidSignature,
          "ER_INVALID_REFRESH_TOKEN"⟩
      ∧ JWTClient.verifyAccessToken ⟨"i", "a", "s", "as", "rs", 900000, 604800000⟩
        (JWTClient.generateRefreshToken ⟨"i", "a", "s", "as", "rs", 900000, 604800000⟩
          0 0 (2 : Nat)) 0 =
        .error ⟨"Invalid or expired access token", .invalidSignature,
          "ER_INVALID_ACCESS_TOKEN"⟩ :=
  c4_cross_secret_verification_fails ⟨"i", "a", "s", "as", "rs", 900000, 604800000⟩
    (by decide) 0 0 0 1 2

/-- C5: every underlying verification failure (bad signature, not yet
valid, expired) is surfaced by the class-specific wrapper as its error
kind carrying the underlying reason, never as claim data; in particular a
token past its expiration second fails with the expiry reason. -/
theorem c5_failure_wrapped_class_error (c : JWTClient) (t : SignedToken α)
    (nowSec : Nat) :
    (∀ e, jwtVerify t c.accessSecret nowSec = .error e →
        c.verifyAccessToken t nowSec =
          .error ⟨"Invalid or expired access token", e, "ER_INVALID_ACCESS_TOKEN"⟩)
      ∧ (∀ e, jwtVerify t c.refreshSecret nowSec = .error e →
        c.verifyRefreshToken t nowSec =
          .error ⟨"Invalid or expired refresh token", e, "ER_INVALID_REFRESH_TOKEN"⟩)
      ∧ (t.signingSecret = c.accessSecret → t.claims.nbf ≤ nowSec →
        t.claims.exp ≤ nowSec →
        c.verifyAccessToken t nowSec =
          .error ⟨"Invalid or expired access token", .tokenExpired,
            "ER_INVALID_ACCESS_TOKEN"⟩) := by
  refine ⟨?_, ?_, ?_⟩
  · intro e he; simp [JWTClient.verifyAccessToken, he]
  · intro e he; simp [JWTClient.verifyRefreshToken, he]
  · intro hs hn hx
    simp [JWTClient.verifyAccessToken, jwtVerify, hs, Nat.not_lt.mpr hn, hx]

/-- Witness for C5: a correctly signed access token verified one second
after its expiration fails with the wrapped expiry error. -/
theorem c5_witness :
    JWTClient.verifyAccessToken (⟨"i", "a", "s", "as", "rs", 1000, 2000⟩ : JWTClient)
        (⟨⟨"i", "a", 0, 0, "s", 0, 1, "access", (7 : Nat)⟩, "as"⟩ : SignedToken Nat) 5 =
      .error ⟨"Invalid or expired access token", .tokenExpired,
        "ER_INVALID_ACCESS_TOKEN"⟩ :=
  (c5_failure_wrapped_class_error ⟨"i", "a", "s", "as", "rs", 1000, 2000⟩
    ⟨⟨"i", "a", 0, 0, "s", 0, 1, "access", (7 : Nat)⟩, "as"⟩ 5).2.2
    rfl (by decide) (by decide)

/-- C6 counterexample: with a configured access lifetime of 1500 ms and
issuance at epoch millisecond 500, the signed expiration claim is
`(500 + 1500) / 1000 = 2`, while issued-at plus the lifetime resolved to
whole seconds is `0 + 1500 / 1000 = 1`: the two independent floorings do
not commute, so `exp = iat + lifetime-in-seconds` fails as stated. -/
theorem c6_counterexample :
    ((⟨"i", "a", "s", "as", "rs", 1500, 1500⟩ : JWTClient).generateAccessToken
        500 0 (0 : Nat)).claims.exp
      ≠ ((⟨"i", "a", "s", "as", "rs", 1500, 1500⟩ : JWTClient).generateAccessToken
        500 0 (0 : Nat)).claims.iat + 1500 / 1000 := by
  decide

/-- C6 as amended: for both issuance calls, issued-at is the current epoch
second, not-before equals issued-at, and — provided the class lifetime
resolves to a whole number of seconds (a multiple of 1000 ms) — the
expiration claim equals issued-at plus the lifetime in seconds. -/
theorem c6_exp_iat_plus_lifetime (c : JWTClient) (nowMs jti : Nat) (d : α)
    (ha : c.accessExpiresIn % 1000 = 0) (hr : c.refreshExpiresIn % 1000 = 0) :
    ((c.generateAccessToken nowMs jti d).claims.iat = nowMs / 1000
        ∧ (c.generateAccessToken nowMs jti d).claims.nbf =
          (c.generateAccessToken nowMs jti d).claims.iat
        ∧ (c.generateAccessToken nowMs jti d).claims.exp =
          (c.generateAccessToken nowMs jti d).claims.iat + c.accessExpiresIn / 1000)
      ∧ ((c.generateRefreshToken nowMs jti d).claims.iat = nowMs / 1000
        ∧ (c.generateRefreshToken nowMs jti d).claims.nbf =
          (c.generateRefreshToken nowMs jti d).claims.iat
        ∧ (c.generateRefreshToken nowMs jti d).claims.exp =
          (c.generateRefreshToken nowMs jti d).claims.iat + c.refreshExpiresIn / 1000) := by
  obtain ⟨ka, hka⟩ := Nat.dvd_of_mod_eq_zero ha
  obtain ⟨kr, hkr⟩ := Nat.dvd_of_mod_eq_zero hr
  refine ⟨⟨rfl, rfl, ?_⟩, ⟨rfl, rfl, ?_⟩⟩
  · show (nowMs + c.accessExpiresIn) / 1000 = nowMs / 1000 + c.accessExpiresIn / 1000
    rw [hka, Nat.add_mul_div_left _ _ (by norm_num : (0:Nat) < 1000),
      Nat.mul_div_cancel_left _ (by norm_num : (0:Nat) < 1000)]
  · show (nowMs + c.refreshExpiresIn) / 1000 = nowMs / 1000 + c.refreshExpiresIn / 1000
    rw [hkr, Nat.add_mul_div_left _ _ (by norm_num : (0:Nat) < 1000),
      Nat.mul_div_cancel_left _ (by norm_num : (0:Nat) < 1000)]

/-- Witness for the amended C6 at whole-second lifetimes (15 m and 7 d). -/
theorem c6_witness :
    ((JWTClient.generateAccessToken ⟨"i", "a", "s", "as", "rs", 900000, 604800000⟩
          1234567 0 (3 : Nat)).claims.iat = 1234567 / 1000
        ∧ (JWTClient.generateAccessToken ⟨"i", "a", "s", "as", "rs", 900000, 604800000⟩
          1234567 0 (3 : Nat)).claims.nbf =
          (JWTClient.generateAccessToken ⟨"i", "a", "s", "as", "rs", 900000, 604800000⟩
            1234567 0 (3 : Nat)).claims.iat
        ∧ (JWTClient.generateAccessToken ⟨"i", "a", "s", "as", "rs", 900000, 604800000⟩
          1234567 0 (3 : Nat)).claims.exp =
          (JWTClient.generateAccessToken ⟨"i", "a", "s", "as", "rs", 900000, 604800000⟩
            1234567 0 (3 : Nat)).claims.iat + 900000 / 1000)
      ∧ ((JWTClient.generateRefreshToken ⟨"i", "a", "s", "as", "rs", 900000, 604800000⟩
          1234567 0 (3 : Nat)).claims.iat = 1234567 / 1000
        ∧ (JWTClient.generateRefreshToken ⟨"i", "a", "s", "as", "rs", 900000, 604800000⟩
          1234567 0 (3 : Nat)).claims.nbf =
          (JWTClient.generateRefreshToken ⟨"i", "a", "s", "as", "rs", 900000, 604800000⟩
            1234567 0 (3 : Nat)).claims.iat
        ∧ (JWTClient.generateRefreshToken ⟨"i", "a", "s", "as", "rs", 900000, 604800000⟩
          1234567 0 (3 : Nat)).claims.exp =
          (JWTClient.generateRefreshToken ⟨"i", "a", "s", "as", "rs", 900000, 604800000⟩
            1234567 0 (3 : Nat)).claims.iat + 604800000 / 1000) :=
  c6_exp_iat_plus_lifetime ⟨"i", "a", "s", "as", "rs", 900000, 604800000⟩
    1234567 0 3 (by decide) (by decide)

/-- Helper for C7: any single issuance call (access or refresh, any client,
clock and payload) emits the current uuid counter as `jti` and advances
the counter by one. -/
theorem issue_jti_state (cc : JWTClient) (nm : Nat) (dd : α) (ss : Nat)
    (tt : SignedToken α) (ss' : Nat)
    (h : cc.issueAccess nm dd ss = (tt, ss') ∨ cc.issueRefresh nm dd ss = (tt, ss')) :
    tt.claims.jti = ss ∧ ss' = ss + 1 := by
  rcases h with h | h
  · have h1 := congrArg (fun p => (Prod.fst p).claims.jti) h
    have h2 := congrArg Prod.snd h
    simp only [JWTClient.issueAccess, JWTClient.generateAccessToken,
      JWTClient.createBasePayload, jwtSign, uuidV7] at h1 h2
    exact ⟨h1.symm, h2.symm⟩
  · have h1 := congrArg (fun p => (Prod.fst p).claims.jti) h
    have h2 := congrArg Prod.snd h
    simp only [JWTClient.issueRefresh, JWTClient.generateRefreshToken,
      JWTClient.createBasePayload, jwtSign, uuidV7] at h1 h2
    exact ⟨h1.symm, h2.symm⟩

/-- C7: two successive issuance calls — of either token class, on any
client instances, clocks (even the same millisecond) and payloads, with
the uuid generator state threaded from the first call into the second —
produce tokens with distinct `jti` identifiers. -/
theorem c7_distinct_token_identifiers (c c' : JWTClient) (nm nm' : Nat)
    (d d' : α) (s s1 s2 : Nat) (t1 t2 : SignedToken α)
    (h1 : c.issueAccess nm d s = (t1, s1) ∨ c.issueRefresh nm d s = (t1, s1))
    (h2 : c'.issueAccess nm' d' s1 = (t2, s2) ∨ c'.issueRefresh nm' d' s1 = (t2, s2)) :
    t1.claims.jti ≠ t2.claims.jti := by
  obtain ⟨j1, hs1⟩ := issue_jti_state c nm d s t1 s1 h1
  obtain ⟨j2, _⟩ := issue_jti_state c' nm' d' s1 t2 s2 h2
  omega

/-- Witness for C7: two access tokens issued back-to-back for the same
payload in the same millisecond have different token identifiers. -/
theorem c7_witness :
    (JWTClient.issueAccess ⟨"i", "a", "s", "as", "rs", 900000, 604800000⟩
        0 (9 : Nat) 0).1.claims.jti ≠
      (JWTClient.issueAccess ⟨"i", "a", "s", "as", "rs", 900000, 604800000⟩
        0 (9 : Nat)
        (JWTClient.issueAccess ⟨"i", "a", "s", "as", "rs", 900000, 604800000⟩
          0 (9 : Nat) 0).2).1.claims.jti :=
  c7_distinct_token_identifiers ⟨"i", "a", "s", "as", "rs", 900000, 604800000⟩
    ⟨"i", "a", "s", "as", "rs", 900000, 604800000⟩ 0 0 9 9 0 1 2 _ _
    (.inl rfl) (.inl rfl)

/-- C9: token verification never consults the embedded type tag — the
outcome of `jwt.verify` is unchanged (up to the tag itself) when the tag
is replaced arbitrarily — so under a configuration whose access and
refresh secrets coincide, an access token within its validity window is
accepted by refresh verification, still carrying type `"access"`. -/
theorem c9_type_tag_not_consulted (c : JWTClient) (nowSec : Nat) :
    (∀ (t : SignedToken α) (ty : String) (sec : String),
        jwtVerify (⟨{ t.claims with type := ty }, t.signingSecret⟩ : SignedToken α)
            sec nowSec
          = (jwtVerify t sec nowSec).map (fun cl => { cl with type := ty }))
      ∧ (c.accessSecret = c.refreshSecret →
        ∀ (nowMs jti : Nat) (d : α), nowMs / 1000 ≤ nowSec →
          nowSec < (nowMs + c.accessExpiresIn) / 1000 →
          ∃ cl : Claims α,
            c.verifyRefreshToken (c.generateAccessToken nowMs jti d) nowSec = .ok cl
              ∧ cl.type = "access" ∧ cl.data = d) := by
  constructor
  · intro t ty sec
    by_cases hs : t.signingSecret ≠ sec
    · simp [jwtVerify, hs, Except.map]
    · by_cases hn : nowSec < t.claims.nbf
      · simp [jwtVerify, hs, hn, Except.map]
      · by_cases hx : t.claims.exp ≤ nowSec
        · simp [jwtVerify, hs, hn, hx, Except.map]
        · simp [jwtVerify, hs, hn, hx, Except.map]
  · intro heq nowMs jti d hnbf hexp
    refine ⟨⟨c.issuer, c.audience, nowMs / 1000, nowMs / 1000, c.subject, jti,
      (nowMs + c.accessExpiresIn) / 1000, "access", d⟩, ?_, rfl, rfl⟩
    simp [JWTClient.verifyRefreshToken, JWTClient.generateAccessToken,
      JWTClient.createBasePayload, jwtSign, jwtVerify, heq,
      Nat.not_lt.mpr hnbf, Nat.not_le.mpr hexp]

/-- Witness for C9: with both secrets equal to `"sec"`, an access token is
verified successfully by `verifyRefreshToken` and keeps type `"access"`. -/
theorem c9_witness :
    ∃ cl : Claims Nat,
      JWTClient.verifyRefreshToken ⟨"i", "a", "s", "sec", "sec", 900000, 604800000⟩
          (JWTClient.generateAccessToken ⟨"i", "a", "s", "sec", "sec", 900000, 604800000⟩
            0 0 (5 : Nat)) 0 = .ok cl
        ∧ cl.type = "access" ∧ cl.data = 5 :=
  (c9_type_tag_not_consulted ⟨"i", "a", "s", "sec", "sec", 900000, 604800000⟩ 0).2
    rfl 0 0 5 (by decide) (by decide)
